import Mathlib

/-!
Verification of the device-scoped key interception and remapping engine
of ez-keyremapper, shallowly embedded from `src/core/key_interceptor.py`
and `src/core/key_sender.py`.
-/

namespace EzKeyremapper

/-! ## Constants (key state flags, from key_interceptor.py) -/

def INTERCEPTION_KEY_DOWN : Nat := 0x00
def INTERCEPTION_KEY_UP : Nat := 0x01
def INTERCEPTION_KEY_E0 : Nat := 0x02
def INTERCEPTION_KEY_E1 : Nat := 0x04

/-! ## Stroke and event data model -/

/-- Embeds `InterceptionKeyStroke` (scan code, state flags, extra info). -/
structure InterceptionKeyStroke where
  code : Nat
  state : Nat
  information : Nat
deriving DecidableEq, Repr

/-- Embeds the `KeyEvent` dataclass delivered to the observer callback. -/
structure KeyEvent where
  scan_code : Nat
  vk_code : Nat
  is_key_up : Bool
  device : Nat
  hardware_id : String
deriving DecidableEq, Repr

/-! ## Scan-code / virtual-key translation tables -/

/-- Embeds the `SCAN_TO_VK` dict literal, in source order. -/
def SCAN_TO_VK : List (Nat × Nat) :=
  [(0x1E, 0x41), (0x30, 0x42), (0x2E, 0x43), (0x20, 0x44), (0x12, 0x45),
   (0x21, 0x46), (0x22, 0x47), (0x23, 0x48), (0x17, 0x49), (0x24, 0x4A),
   (0x25, 0x4B), (0x26, 0x4C), (0x32, 0x4D), (0x31, 0x4E), (0x18, 0x4F),
   (0x19, 0x50), (0x10, 0x51), (0x13, 0x52), (0x1F, 0x53), (0x14, 0x54),
   (0x16, 0x55), (0x2F, 0x56), (0x11, 0x57), (0x2D, 0x58), (0x15, 0x59),
   (0x2C, 0x5A),
   (0x02, 0x31), (0x03, 0x32), (0x04, 0x33), (0x05, 0x34), (0x06, 0x35),
   (0x07, 0x36), (0x08, 0x37), (0x09, 0x38), (0x0A, 0x39), (0x0B, 0x30),
   (0x3B, 0x70), (0x3C, 0x71), (0x3D, 0x72), (0x3E, 0x73), (0x3F, 0x74),
   (0x40, 0x75), (0x41, 0x76), (0x42, 0x77), (0x43, 0x78), (0x44, 0x79),
   (0x57, 0x7A), (0x58, 0x7B),
   (0x01, 0x1B), (0x0E, 0x08), (0x0F, 0x09), (0x1C, 0x0D), (0x39, 0x20),
   (0x2A, 0x10), (0x36, 0x10), (0x1D, 0x11), (0x38, 0x12), (0x3A, 0x14)]

/-- First-match lookup with a default, modelling `dict.get(k, default)`
(keys of a Python dict literal are effectively unique for lookup; for the
inverted table duplicates are resolved by reversing, see `VK_TO_SCAN`). -/
def dictGet (l : List (Nat × Nat)) (k d : Nat) : Nat :=
  match l.find? (fun p => p.1 == k) with
  | some p => p.2
  | none => d

/-- Embeds `VK_TO_SCAN = {v: k for k, v in SCAN_TO_VK.items()}`: in a dict
comprehension a later pair overrides an earlier one with the same key, which
for first-match lookup is the reversed list. -/
def VK_TO_SCAN : List (Nat × Nat) :=
  (SCAN_TO_VK.map (fun p => (p.2, p.1))).reverse

/-- Embeds the `extended_map` dict literal inside `_scan_to_vk`. -/
def extended_map : List (Nat × Nat) :=
  [(0x1C, 0x0D), (0x1D, 0x11), (0x38, 0x12), (0x47, 0x24), (0x48, 0x26),
   (0x49, 0x21), (0x4B, 0x25), (0x4D, 0x27), (0x4F, 0x23), (0x50, 0x28),
   (0x51, 0x22), (0x52, 0x2D), (0x53, 0x2E)]

/-- Embeds `KeyInterceptor._scan_to_vk`: the extended table when the
extended flag is set, else the base table; absent keys fall back to the
scan code itself. -/
def scan_to_vk (scan_code : Nat) (extended : Bool) : Nat :=
  if extended then dictGet extended_map scan_code scan_code
  else dictGet SCAN_TO_VK scan_code scan_code

/-- Embeds `KeyInterceptor._vk_to_scan`: reverse lookup, identity fallback. -/
def vk_to_scan (vk_code : Nat) : Nat :=
  dictGet VK_TO_SCAN vk_code vk_code

/-! ## Remap table -/

/-- A value of `KeyInterceptor._mappings`: `Union[int, List[int]]`, i.e. a
single output VK or an ordered combo list. -/
inductive MapOutput where
  | single (vk : Nat)
  | combo (vks : List Nat)
deriving DecidableEq, Repr

/-- The observable behaviour of the `_mappings` dict: a partial map from
input VK to its output action. -/
def Mappings : Type := Nat → Option MapOutput

/-- The empty `_mappings` dict. -/
def emptyMappings : Mappings := fun _ => none

/-- Embeds `KeyInterceptor.set_mappings`: `self._mappings = mappings.copy()`
replaces the table wholesale with (a copy of) the argument. -/
def set_mappings (_old new : Mappings) : Mappings := new

/-- Embeds `KeyInterceptor.add_mapping`: `self._mappings[input_vk] = output`,
dict-assignment overwrite semantics. -/
def add_mapping (m : Mappings) (input_vk : Nat) (output : MapOutput) : Mappings :=
  fun k => if k = input_vk then some output else m k

/-- Embeds `KeyInterceptor.remove_mapping`:
`self._mappings.pop(input_vk, None)`, a no-op when the key is absent. -/
def remove_mapping (m : Mappings) (input_vk : Nat) : Mappings :=
  fun k => if k = input_vk then none else m k

/-- Embeds `KeyInterceptor.clear_mappings`. -/
def clear_mappings (_m : Mappings) : Mappings := fun _ => none

/-! ## Interceptor configuration state and dispatch loop body -/

/-- The fields of `KeyInterceptor` read by the dispatch loop body. -/
structure InterceptorState where
  enabled : Bool
  target_device : Option Nat
  mappings : Mappings

/-- One outward action of the dispatch loop body per received stroke:
either `self._driver.send(device, stroke)` or `send_key_combo(vks)`. -/
inductive Effect where
  | send (device : Nat) (stroke : InterceptionKeyStroke)
  | comboInvocation (vks : List Nat)
deriving DecidableEq, Repr

/-- Embeds the `should_remap` computation of `_intercept_loop`:
enabled, the VK present in the table, and the device eligible
(`self._target_device is None or device == self._target_device`). -/
def should_remap (st : InterceptorState) (device : Nat) (vk_code : Nat) : Bool :=
  st.enabled && (st.mappings vk_code).isSome &&
    decide (st.target_device = none ∨ st.target_device = some device)

/-- Embeds the remap decision of `KeyInterceptor._intercept_loop`
(lines 561-590): for one received stroke, the list of outward driver
sends / synthesizer invocations, in order.  When `should_remap` holds the
table lookup is a `some`, so the `none` branch of the match fires exactly
when the stroke passes through unchanged.  In the single-key branch the
assignment `new_stroke.code = output_scan` targets a ctypes `c_ushort`
field, which silently truncates the value mod 2^16; the `state` and
`information` copies take their values from the received stroke, whose
fields are themselves `c_ushort` / `c_uint`, so no new truncation occurs
there. -/
def interceptStroke (st : InterceptorState) (device : Nat)
    (stroke : InterceptionKeyStroke) : List Effect :=
  let is_key_up : Bool := (stroke.state &&& INTERCEPTION_KEY_UP) != 0
  let is_extended : Bool := (stroke.state &&& INTERCEPTION_KEY_E0) != 0
  let vk_code := scan_to_vk stroke.code is_extended
  if should_remap st device vk_code then
    match st.mappings vk_code with
    | some (MapOutput.combo vks) =>
        -- Combo mapping - only trigger on key down, block key up
        if !is_key_up then [Effect.comboInvocation vks] else []
    | some (MapOutput.single output) =>
        -- Single key mapping - send remapped key, preserving state and info;
        -- the c_ushort stroke field truncates the stored scan code mod 2^16
        [Effect.send device
          { code := vk_to_scan output % 2 ^ 16
            state := stroke.state
            information := stroke.information }]
    | none => []
  else
    -- Pass through original key
    [Effect.send device stroke]

/-- The VK the loop resolves for a stroke (scan code through
`_scan_to_vk` with the E0 flag). -/
def resolved_vk (stroke : InterceptionKeyStroke) : Nat :=
  scan_to_vk stroke.code ((stroke.state &&& INTERCEPTION_KEY_E0) != 0)

/-- Embeds the hardware-id scan of `_intercept_loop`: first keyboard with
this device number, else the empty string. -/
def hwIdFor (keyboards : List (Nat × String)) (device : Nat) : String :=
  match keyboards.find? (fun kb => kb.1 == device) with
  | some kb => kb.2
  | none => ""

/-- Embeds one full iteration body of `_intercept_loop` after a stroke is
received: build the `KeyEvent`, invoke the observer callback when one is
registered (a raised exception is NOT caught and escapes the loop, modelled
as `Except.error`), then take the remap decision. -/
def loopBody (st : InterceptorState) (keyboards : List (Nat × String))
    (on_key_event : Option (KeyEvent → Except Unit Unit))
    (device : Nat) (stroke : InterceptionKeyStroke) :
    Except Unit (List Effect) :=
  let is_key_up : Bool := (stroke.state &&& INTERCEPTION_KEY_UP) != 0
  let is_extended : Bool := (stroke.state &&& INTERCEPTION_KEY_E0) != 0
  let vk_code := scan_to_vk stroke.code is_extended
  let hw_id := hwIdFor keyboards device
  match on_key_event with
  | some cb =>
      match cb { scan_code := stroke.code, vk_code := vk_code,
                 is_key_up := is_key_up, device := device,
                 hardware_id := hw_id } with
      | Except.error e => Except.error e
      | Except.ok _ => Except.ok (interceptStroke st device stroke)
  | none => Except.ok (interceptStroke st device stroke)

/-! ## Output synthesizer (key_sender.py) -/

/-- Embeds the `MODIFIER_KEYS` set literal. -/
def MODIFIER_KEYS : List Nat :=
  [0x10, 0x11, 0x12, 0xA0, 0xA1, 0xA2, 0xA3, 0xA4, 0xA5, 0x5B, 0x5C]

/-- One injection event: virtual key and whether it is a key-up. -/
structure Injection where
  vk : Nat
  key_up : Bool
deriving DecidableEq, Repr

/-- Running state while a combo is delivered: how many `send_key` calls
were made so far, the accumulated success flag, and the trace of injection
events attempted in order. -/
structure SendSt where
  step : Nat
  success : Bool
  trace : List Injection
deriving DecidableEq, Repr

/-- The environment decides the outcome of each `SendInput` call; call
number `i` (0-based over one combo) succeeds iff `oracle i`. -/
def sendOutcome (oracle : Nat → Bool) (st : SendSt) : Bool := oracle st.step

/-- Embeds one `if not send_key(vk, key_up): success = False` statement:
the injection is attempted (recorded in the trace, consuming one outcome),
and the success flag is cleared when the call fails. -/
def sendChecked (oracle : Nat → Bool) (st : SendSt) (vk : Nat)
    (key_up : Bool) : SendSt :=
  { step := st.step + 1
    success := st.success && sendOutcome oracle st
    trace := st.trace ++ [{ vk := vk, key_up := key_up }] }

/-- Embeds `for vk in l: if not send_key(vk, key_up): success = False`. -/
def pressList (oracle : Nat → Bool) (key_up : Bool) :
    List Nat → SendSt → SendSt
  | [], st => st
  | vk :: rest, st => pressList oracle key_up rest (sendChecked oracle st vk key_up)

/-- Embeds the regular-keys loop of `send_key_combo`: for each key, press
down then release before moving to the next. -/
def pressReleaseList (oracle : Nat → Bool) : List Nat → SendSt → SendSt
  | [], st => st
  | vk :: rest, st =>
      pressReleaseList oracle rest
        (sendChecked oracle (sendChecked oracle st vk false) vk true)

/-- Embeds `send_key_combo(vk_codes)`: returns the success flag and the
trace of injections attempted.  Empty input returns `false` with no
injections; otherwise modifiers are pressed in order, regular keys pressed
and released in order, and modifiers released in reverse order. -/
def send_key_combo (oracle : Nat → Bool) (vk_codes : List Nat) :
    Bool × List Injection :=
  if vk_codes = [] then (false, [])
  else
    let modifiers := vk_codes.filter (fun vk => vk ∈ MODIFIER_KEYS)
    let regular_keys := vk_codes.filter (fun vk => vk ∉ MODIFIER_KEYS)
    let st0 : SendSt := { step := 0, success := true, trace := [] }
    let st1 := pressList oracle false modifiers st0
    let st2 := pressReleaseList oracle regular_keys st1
    let st3 := pressList oracle true modifiers.reverse st2
    (st3.success, st3.trace)

/-! ## Engine lifecycle state machine (start / stop) -/

/-- The lifecycle-relevant fields of `KeyInterceptor`: the run flag, the
dispatch thread handle (`None` when absent), whether the driver object is
initialized, and the count of dispatch threads ever spawned (the observable
effect of `threading.Thread(...).start()`). -/
structure EngineState where
  running : Bool
  thread : Option Nat
  driver : Bool
  spawnCount : Nat
deriving DecidableEq, Repr

/-- Embeds `KeyInterceptor.start`: early-returns when already running,
else initializes the driver, sets the run flag and spawns the dispatch
thread. -/
def engineStart (s : EngineState) : EngineState :=
  if s.running then s
  else
    { running := true
      thread := some s.spawnCount
      driver := true
      spawnCount := s.spawnCount + 1 }

/-- Embeds `KeyInterceptor.stop`: early-returns when not running, else
clears the run flag, joins and drops the thread, and destroys the driver. -/
def engineStop (s : EngineState) : EngineState :=
  if !s.running then s
  else
    { running := false
      thread := none
      driver := false
      spawnCount := s.spawnCount }

/-! ## Dispatch-loop theorems -/

/-- Helper: `should_remap` holds when enabled, mapped and device-eligible. -/
lemma should_remap_true (st : InterceptorState) (device : Nat) (vk : Nat)
    (hen : st.enabled = true) (hmap : (st.mappings vk).isSome = true)
    (hdev : st.target_device = none ∨ st.target_device = some device) :
    should_remap st device vk = true := by
  simp [should_remap, hen, hmap, hdev]

/-- C1: with interception enabled, the resolved VK of the stroke mapped to a
combo list and the device eligible, a key-down produces exactly one
synthesizer invocation carrying exactly the configured list and no driver
send, and a key-up produces no effect at all. -/
theorem combo_dispatch (st : InterceptorState) (device : Nat)
    (stroke : InterceptionKeyStroke) (l : List Nat)
    (hen : st.enabled = true)
    (hmap : st.mappings (resolved_vk stroke) = some (MapOutput.combo l))
    (hdev : st.target_device = none ∨ st.target_device = some device) :
    interceptStroke st device stroke =
      if (stroke.state &&& INTERCEPTION_KEY_UP) != 0 then []
      else [Effect.comboInvocation l] := by
  have hrm := should_remap_true st device (resolved_vk stroke) hen
    (by rw [hmap]; rfl) hdev
  simp only [resolved_vk] at hmap hrm
  simp only [interceptStroke, hrm, if_true, hmap]
  by_cases hup : (stroke.state &&& INTERCEPTION_KEY_UP) != 0 <;> simp [hup]

/-- Witness for `combo_dispatch` at a concrete state: F1 scan code 0x3B
resolved to VK 0x70, mapped to the combo `[LCtrl, LShift, V]`, key-down. -/
theorem combo_dispatch_witness :
    ((true : Bool) = true
      ∧ (add_mapping emptyMappings 0x70
          (MapOutput.combo [0xA2, 0xA0, 0x56]))
          (resolved_vk { code := 0x3B, state := 0, information := 0 })
          = some (MapOutput.combo [0xA2, 0xA0, 0x56])
      ∧ ((none : Option Nat) = none ∨ (none : Option Nat) = some 2))
    ∧ interceptStroke
        { enabled := true, target_device := none
          mappings := add_mapping emptyMappings 0x70
            (MapOutput.combo [0xA2, 0xA0, 0x56]) }
        2 { code := 0x3B, state := 0, information := 0 } =
      if (((0 : Nat) &&& INTERCEPTION_KEY_UP) != 0) = true then []
      else [Effect.comboInvocation [0xA2, 0xA0, 0x56]] :=
  ⟨⟨rfl, by decide, Or.inl rfl⟩,
    combo_dispatch _ 2 _ _ rfl (by decide) (Or.inl rfl)⟩

/-- C2: when no remap applies (disabled, VK unmapped, or target device set
and different), the dispatch loop forwards exactly the received stroke on
the same device. -/
theorem passthrough (st : InterceptorState) (device : Nat)
    (stroke : InterceptionKeyStroke)
    (h : st.enabled = false ∨ st.mappings (resolved_vk stroke) = none
        ∨ ∃ t, st.target_device = some t ∧ t ≠ device) :
    interceptStroke st device stroke = [Effect.send device stroke] := by
  have hrm : should_remap st device (resolved_vk stroke) = false := by
    rcases h with h | h | ⟨t, ht, hne⟩
    · simp [should_remap, h]
    · simp [should_remap, h]
    · simp [should_remap, ht, hne]
  simp only [resolved_vk] at hrm
  simp only [interceptStroke, hrm]
  simp

/-- Witness for `passthrough`: VK 0x70 mapped but the target device is 2
while the stroke arrives on device 3 — forwarded untouched. -/
theorem passthrough_witness :
    ((⟨true, some 2,
        add_mapping emptyMappings 0x70 (MapOutput.single 0x71)⟩ :
        InterceptorState).enabled = false
      ∨ (⟨true, some 2,
          add_mapping emptyMappings 0x70 (MapOutput.single 0x71)⟩ :
          InterceptorState).mappings
          (resolved_vk { code := 0x3B, state := 0, information := 7 }) = none
      ∨ ∃ t, (some 2 : Option Nat) = some t ∧ t ≠ 3)
    ∧ interceptStroke
        ⟨true, some 2, add_mapping emptyMappings 0x70 (MapOutput.single 0x71)⟩
        3 { code := 0x3B, state := 0, information := 7 } =
      [Effect.send 3 { code := 0x3B, state := 0, information := 7 }] :=
  ⟨Or.inr (Or.inr ⟨2, rfl, by decide⟩),
    passthrough _ 3 _ (Or.inr (Or.inr ⟨2, rfl, by decide⟩))⟩

/-- C3 counterexample: the mapping table accepts the output VK 0x10000,
whose translation `vk_to_scan 0x10000 = 0x10000` does not fit in the
`c_ushort` stroke field; the forwarded stroke carries the truncated scan
code 0, not the translation itself, refuting the claim as stated at this
input. -/
theorem single_key_truncation_cex :
    interceptStroke
      ⟨true, none, add_mapping emptyMappings 0x70 (MapOutput.single 0x10000)⟩
      2 { code := 0x3B, state := 0, information := 0 } =
      [Effect.send 2 { code := 0, state := 0, information := 0 }]
    ∧ interceptStroke
      ⟨true, none, add_mapping emptyMappings 0x70 (MapOutput.single 0x10000)⟩
      2 { code := 0x3B, state := 0, information := 0 } ≠
      [Effect.send 2
        { code := vk_to_scan 0x10000, state := 0, information := 0 }] := by
  constructor
  · decide
  · decide

/-- C3 amended: a SingleKey mapping forwards exactly one stroke on the
same device, preserving the state flags and extra information and
replacing only the scan code by the translation of the mapped output VK
reduced mod 2^16 (the stroke field is a `c_ushort`); the reduction is the
identity whenever the translation fits in 16 bits. -/
theorem single_key_dispatch (st : InterceptorState) (device : Nat)
    (stroke : InterceptionKeyStroke) (out : Nat)
    (hen : st.enabled = true)
    (hmap : st.mappings (resolved_vk stroke) = some (MapOutput.single out))
    (hdev : st.target_device = none ∨ st.target_device = some device) :
    interceptStroke st device stroke =
      [Effect.send device
        { code := vk_to_scan out % 2 ^ 16
          state := stroke.state
          information := stroke.information }] := by
  have hrm := should_remap_true st device (resolved_vk stroke) hen
    (by rw [hmap]; rfl) hdev
  simp only [resolved_vk] at hmap hrm
  simp only [interceptStroke, hrm, if_true, hmap]

/-- Witness for `single_key_dispatch`: F1 (scan 0x3B, VK 0x70) remapped
to F2 (VK 0x71, scan 0x3C, unchanged by the mod) on an eligible device,
key-up stroke. -/
theorem single_key_dispatch_witness :
    ((true : Bool) = true
      ∧ (add_mapping emptyMappings 0x70 (MapOutput.single 0x71))
          (resolved_vk { code := 0x3B, state := 1, information := 5 })
          = some (MapOutput.single 0x71)
      ∧ ((some 2 : Option Nat) = none ∨ (some 2 : Option Nat) = some 2))
    ∧ interceptStroke
        { enabled := true, target_device := some 2
          mappings := add_mapping emptyMappings 0x70 (MapOutput.single 0x71) }
        2 { code := 0x3B, state := 1, information := 5 } =
      [Effect.send 2
        { code := vk_to_scan 0x71 % 2 ^ 16, state := 1, information := 5 }] :=
  ⟨⟨rfl, by decide, Or.inr rfl⟩,
    single_key_dispatch _ 2 _ _ rfl (by decide) (Or.inr rfl)⟩

/-! ## Synthesizer lemmas -/

/-- Generic runner: perform a list of injections in order through
`sendChecked`. -/
def runPlan (oracle : Nat → Bool) : List Injection → SendSt → SendSt
  | [], st => st
  | inj :: rest, st =>
      runPlan oracle rest (sendChecked oracle st inj.vk inj.key_up)

lemma pressList_eq_runPlan (oracle : Nat → Bool) (ku : Bool)
    (l : List Nat) (st : SendSt) :
    pressList oracle ku l st =
      runPlan oracle (l.map fun vk => { vk := vk, key_up := ku }) st := by
  induction l generalizing st with
  | nil => rfl
  | cons a rest ih => simp [pressList, runPlan, ih]

lemma pressReleaseList_eq_runPlan (oracle : Nat → Bool)
    (l : List Nat) (st : SendSt) :
    pressReleaseList oracle l st =
      runPlan oracle
        (l.flatMap fun vk =>
          [{ vk := vk, key_up := false }, { vk := vk, key_up := true }]) st := by
  induction l generalizing st with
  | nil => rfl
  | cons a rest ih =>
      simp only [pressReleaseList, List.flatMap_cons, List.cons_append,
        List.nil_append, runPlan]
      exact ih _

lemma runPlan_trace (oracle : Nat → Bool) (plan : List Injection)
    (st : SendSt) :
    (runPlan oracle plan st).trace = st.trace ++ plan := by
  induction plan generalizing st with
  | nil => simp [runPlan]
  | cons a rest ih => simp [runPlan, sendChecked, ih]

lemma runPlan_step (oracle : Nat → Bool) (plan : List Injection)
    (st : SendSt) :
    (runPlan oracle plan st).step = st.step + plan.length := by
  induction plan generalizing st with
  | nil => simp [runPlan]
  | cons a rest ih => simp [runPlan, sendChecked, ih]; omega

lemma runPlan_success (oracle : Nat → Bool) (plan : List Injection)
    (st : SendSt) :
    (runPlan oracle plan st).success =
      (st.success &&
        (List.range plan.length).all fun i => oracle (st.step + i)) := by
  induction plan generalizing st with
  | nil => simp [runPlan]
  | cons a rest ih =>
      simp only [runPlan, ih, sendChecked, sendOutcome]
      rw [List.length_cons, List.range_succ_eq_map]
      simp only [List.all_cons, List.all_map, Function.comp_def, Nat.add_zero]
      have h1 : (fun i => oracle (st.step + 1 + i)) =
          fun i => oracle (st.step + i.succ) := by
        funext i
        congr 1
        omega
      rw [h1, Bool.and_assoc]

/-- The sequence of injections `send_key_combo` performs for a non-empty
input: modifier downs in order, then each regular key down and up, then
modifier ups in reverse order. -/
def comboPlan (vk_codes : List Nat) : List Injection :=
  ((vk_codes.filter fun vk => vk ∈ MODIFIER_KEYS).map
      fun vk => { vk := vk, key_up := false })
    ++ ((vk_codes.filter fun vk => vk ∉ MODIFIER_KEYS).flatMap
      fun vk => [{ vk := vk, key_up := false }, { vk := vk, key_up := true }])
    ++ ((vk_codes.filter fun vk => vk ∈ MODIFIER_KEYS).reverse.map
      fun vk => { vk := vk, key_up := true })

lemma send_key_combo_trace (oracle : Nat → Bool) (vk_codes : List Nat)
    (h : vk_codes ≠ []) :
    (send_key_combo oracle vk_codes).2 = comboPlan vk_codes := by
  simp only [send_key_combo, if_neg h, pressList_eq_runPlan,
    pressReleaseList_eq_runPlan, runPlan_trace, comboPlan]
  simp [List.append_assoc]

lemma all_range_split (f : Nat → Bool) (a b : Nat) :
    (List.range (a + b)).all f =
      ((List.range a).all f && (List.range b).all fun i => f (a + i)) := by
  rw [List.range_add]
  simp [Function.comp_def]

lemma runPlan3_success (oracle : Nat → Bool) (p1 p2 p3 : List Injection) :
    (runPlan oracle p3 (runPlan oracle p2 (runPlan oracle p1
        { step := 0, success := true, trace := [] }))).success =
      (List.range (p1.length + p2.length + p3.length)).all oracle := by
  simp only [runPlan_success, runPlan_step]
  simp only [Bool.true_and, Nat.zero_add]
  rw [all_range_split oracle (p1.length + p2.length) p3.length,
    all_range_split oracle p1.length p2.length]

lemma send_key_combo_success (oracle : Nat → Bool) (vk_codes : List Nat)
    (h : vk_codes ≠ []) :
    (send_key_combo oracle vk_codes).1 =
      (List.range (comboPlan vk_codes).length).all oracle := by
  simp only [send_key_combo, if_neg h, pressList_eq_runPlan,
    pressReleaseList_eq_runPlan]
  rw [runPlan3_success]
  congr 1
  simp only [comboPlan, List.length_append]

/-- C4: for every non-empty VK list, `send_key_combo` injects, in order,
a key-down for each modifier in original relative order, then for each
non-modifier in relative order a key-down immediately followed by its
key-up, then a key-up for each modifier in reverse order of the presses. -/
theorem combo_injection_order (oracle : Nat → Bool) (vk_codes : List Nat)
    (h : vk_codes ≠ []) :
    (send_key_combo oracle vk_codes).2 =
      ((vk_codes.filter fun vk => vk ∈ MODIFIER_KEYS).map
          fun vk => { vk := vk, key_up := false })
        ++ ((vk_codes.filter fun vk => vk ∉ MODIFIER_KEYS).flatMap
          fun vk =>
            [{ vk := vk, key_up := false }, { vk := vk, key_up := true }])
        ++ ((vk_codes.filter fun vk => vk ∈ MODIFIER_KEYS).reverse.map
          fun vk => { vk := vk, key_up := true }) :=
  send_key_combo_trace oracle vk_codes h

/-- Witness for `combo_injection_order` at `[LCtrl, LShift, V]`:
LCtrl down, LShift down, V down, V up, LShift up, LCtrl up. -/
theorem combo_injection_order_witness :
    ([0xA2, 0xA0, 0x56] : List Nat) ≠ []
    ∧ (send_key_combo (fun _ => true) [0xA2, 0xA0, 0x56]).2 =
      ((([0xA2, 0xA0, 0x56] : List Nat).filter
            fun vk => vk ∈ MODIFIER_KEYS).map
          fun vk => { vk := vk, key_up := false })
        ++ ((([0xA2, 0xA0, 0x56] : List Nat).filter
            fun vk => vk ∉ MODIFIER_KEYS).flatMap
          fun vk =>
            [{ vk := vk, key_up := false }, { vk := vk, key_up := true }])
        ++ ((([0xA2, 0xA0, 0x56] : List Nat).filter
            fun vk => vk ∈ MODIFIER_KEYS).reverse.map
          fun vk => { vk := vk, key_up := true }) :=
  ⟨by decide, combo_injection_order (fun _ => true) _ (by decide)⟩

/-- C5: for every non-empty VK list, `send_key_combo` returns `false`
exactly when at least one individual injection fails, and the injections
attempted (the trace) are the same whatever the injection outcomes — no
failure aborts the remaining steps. -/
theorem combo_best_effort (oracle oracle2 : Nat → Bool)
    (vk_codes : List Nat) (h : vk_codes ≠ []) :
    ((send_key_combo oracle vk_codes).1 = false ↔
      ∃ i, i < (send_key_combo oracle vk_codes).2.length ∧ oracle i = false)
    ∧ (send_key_combo oracle vk_codes).2 =
        (send_key_combo oracle2 vk_codes).2 := by
  constructor
  · rw [send_key_combo_success oracle vk_codes h,
      send_key_combo_trace oracle vk_codes h]
    simp [List.all_eq_true, List.mem_range]
  · rw [send_key_combo_trace oracle vk_codes h,
      send_key_combo_trace oracle2 vk_codes h]

/-- Witness for `combo_best_effort`: combo `[LCtrl, V]` where injection
number 1 (the V down) fails — result is `false`, and the trace equals the
trace under an all-failing oracle. -/
theorem combo_best_effort_witness :
    ([0xA2, 0x56] : List Nat) ≠ []
    ∧ (((send_key_combo (fun i => decide (i ≠ 1)) [0xA2, 0x56]).1 = false ↔
        ∃ i, i < (send_key_combo (fun i => decide (i ≠ 1))
            [0xA2, 0x56]).2.length
          ∧ decide (i ≠ 1) = false)
      ∧ (send_key_combo (fun i => decide (i ≠ 1)) [0xA2, 0x56]).2 =
          (send_key_combo (fun _ => false) [0xA2, 0x56]).2) :=
  ⟨by decide,
    combo_best_effort (fun i => decide (i ≠ 1)) (fun _ => false) _ (by decide)⟩

/-- C6 counterexample: an empty combo list is NOT rejected — after
`add_mapping 0x70 []` the table holds an empty-combo entry for VK 0x70,
and `set_mappings` likewise installs a table containing one verbatim. -/
theorem empty_combo_accepted_cex :
    (add_mapping emptyMappings 0x70 (MapOutput.combo [])) 0x70 =
      some (MapOutput.combo [])
    ∧ (set_mappings emptyMappings
        (add_mapping emptyMappings 0x70 (MapOutput.combo []))) 0x70 =
      some (MapOutput.combo []) := by
  constructor <;> rfl

/-- C6 amended: `set_mappings` and `add_mapping` perform no validation;
an empty-combo action is stored verbatim for any input VK and any prior
table, and a subsequent lookup returns `Combo []`. -/
theorem empty_combo_stored (m : Mappings) (k : Nat) :
    (add_mapping m k (MapOutput.combo [])) k = some (MapOutput.combo [])
    ∧ (set_mappings m (add_mapping m k (MapOutput.combo []))) k =
      some (MapOutput.combo []) := by
  constructor <;> simp [add_mapping, set_mappings]

/-- C7 (code divergence): the observer callback is invoked with no
exception handler, so a raised error escapes the loop body — the body
yields an error and makes no outbound decision (no forward, no deliberate
suppression) for the received stroke. -/
theorem observer_error_propagates :
    loopBody
      { enabled := true, target_device := none, mappings := emptyMappings }
      [] (some fun _ => Except.error ()) 1
      { code := 0x3B, state := 0, information := 0 } = Except.error () := rfl

/-- C8: adding a SingleKey mapping makes lookup return it, removing it
afterwards makes lookup return none, and removing an absent key leaves
the whole table unchanged. -/
theorem mapping_round_trip (m : Mappings) (k v : Nat) :
    (add_mapping m k (MapOutput.single v)) k = some (MapOutput.single v)
    ∧ (remove_mapping (add_mapping m k (MapOutput.single v)) k) k = none
    ∧ (m k = none → remove_mapping m k = m) := by
  refine ⟨by simp [add_mapping], by simp [remove_mapping], fun h => ?_⟩
  funext k2
  by_cases hk : k2 = k
  · subst hk
    simp [remove_mapping, h]
  · simp [remove_mapping, hk]

/-- Witness for `mapping_round_trip` on the empty table with k = 3,
v = 7; the no-op hypothesis `emptyMappings 3 = none` holds. -/
theorem mapping_round_trip_witness :
    emptyMappings 3 = none
    ∧ ((add_mapping emptyMappings 3 (MapOutput.single 7)) 3 =
        some (MapOutput.single 7)
      ∧ (remove_mapping (add_mapping emptyMappings 3 (MapOutput.single 7)) 3)
          3 = none
      ∧ (emptyMappings 3 = none →
          remove_mapping emptyMappings 3 = emptyMappings)) :=
  ⟨rfl, mapping_round_trip emptyMappings 3 7⟩

/-- C9: `start()` on a running engine leaves the state (thread handle and
spawn count included) unchanged, `stop()` on an idle engine leaves the
state unchanged, and two consecutive starts have the effect of one. -/
theorem start_stop_idempotent (s : EngineState) :
    (s.running = true → engineStart s = s)
    ∧ (s.running = false → engineStop s = s)
    ∧ engineStart (engineStart s) = engineStart s := by
  refine ⟨fun h => by simp [engineStart, h],
    fun h => by simp [engineStop, h], ?_⟩
  by_cases h : s.running
  · simp [engineStart, h]
  · simp [engineStart, h]

/-- Witness for `start_stop_idempotent`: a running engine is unchanged by
`start`, an idle engine is unchanged by `stop`. -/
theorem start_stop_idempotent_witness :
    engineStart ⟨true, some 0, true, 1⟩ = ⟨true, some 0, true, 1⟩
    ∧ engineStop ⟨false, none, false, 1⟩ = ⟨false, none, false, 1⟩ :=
  ⟨(start_stop_idempotent ⟨true, some 0, true, 1⟩).1 rfl,
    (start_stop_idempotent ⟨false, none, false, 1⟩).2.1 rfl⟩

/-- C10: scan codes absent from the base table (plain) or the extended
table (extended flag set) resolve to themselves, and VKs absent from the
reverse table translate to themselves. -/
theorem translation_identity_fallback (s vk : Nat) :
    ((∀ p ∈ SCAN_TO_VK, p.1 ≠ s) → scan_to_vk s false = s)
    ∧ ((∀ p ∈ extended_map, p.1 ≠ s) → scan_to_vk s true = s)
    ∧ ((∀ p ∈ VK_TO_SCAN, p.1 ≠ vk) → vk_to_scan vk = vk) := by
  have hfind : ∀ (l : List (Nat × Nat)) (x : Nat),
      (∀ p ∈ l, p.1 ≠ x) → l.find? (fun p => p.1 == x) = none := by
    intro l x hl
    rw [List.find?_eq_none]
    intro p hp
    simpa using hl p hp
  refine ⟨fun hs => ?_, fun he => ?_, fun hv => ?_⟩
  · simp [scan_to_vk, dictGet, hfind SCAN_TO_VK s hs]
  · simp [scan_to_vk, dictGet, hfind extended_map s he]
  · simp [vk_to_scan, dictGet, hfind VK_TO_SCAN vk hv]

/-- Witness for `translation_identity_fallback`: scan code 0x64 is in
neither scan table and VK 0x7C (F13) is not in the reverse table; all
three translations are the identity there. -/
theorem translation_identity_fallback_witness :
    ((∀ p ∈ SCAN_TO_VK, p.1 ≠ 0x64) ∧ scan_to_vk 0x64 false = 0x64)
    ∧ ((∀ p ∈ extended_map, p.1 ≠ 0x64) ∧ scan_to_vk 0x64 true = 0x64)
    ∧ ((∀ p ∈ VK_TO_SCAN, p.1 ≠ 0x7C) ∧ vk_to_scan 0x7C = 0x7C) :=
  ⟨⟨by decide, (translation_identity_fallback 0x64 0x7C).1 (by decide)⟩,
    ⟨by decide, (translation_identity_fallback 0x64 0x7C).2.1 (by decide)⟩,
    ⟨by decide, (translation_identity_fallback 0x64 0x7C).2.2 (by decide)⟩⟩

end EzKeyremapper
